import Mathlib

/-!
Verification of the report-distribution and notification engine of the
VaidyaVihar Diagnostic backend.

The definitions below are a shallow embedding of
`backend/app/routes/report_distribution.py`,
`backend/app/services/websocket_service.py` and
`backend/app/services/redis_cache.py`.  Machine state (the SQL table of
distribution rows, the in-memory connection manager, the Redis key space)
is passed explicitly; timestamps are natural numbers; fallible routes
return `Except`.
-/

namespace VaidyaVihar

/-! ## Data model

`ReportDistribution` mirrors the ORM model in `app/models/doctor.py`
(the columns used by the distribution routes).  Timestamps are `Option Nat`
(`none` = SQL NULL). -/

structure ReportDistribution where
  id : Nat
  distribution_id : String
  lab_result_id : Nat
  patient_id : Nat
  branch_id : Nat
  doctor_id : Nat
  report_type : String
  report_name : String
  delivery_status : String
  delivery_method : String
  priority : String
  created_by : Nat
  is_urgent : Bool
  email_sent : Bool := false
  email_sent_at : Option Nat := none
  sms_sent : Bool := false
  sms_sent_at : Option Nat := none
  whatsapp_sent : Bool := false
  whatsapp_sent_at : Option Nat := none
  push_sent : Bool := false
  push_sent_at : Option Nat := none
  sent_at : Option Nat := none
  viewed_at : Option Nat := none
  downloaded_at : Option Nat := none
  printed_at : Option Nat := none
  acknowledged_at : Option Nat := none
  created_at : Nat := 0
  deriving Repr, DecidableEq

/-- The fields of `LabResult` read by the distribution routes. -/
structure LabResult where
  id : Nat
  patient_id : Nat
  branch_id : Nat
  test_category : String
  test_name : String
  deriving Repr, DecidableEq

/-- The fields of `Doctor` read by the distribution routes.  The
`notification_preferences` JSON dict is modelled by one boolean per
channel; the Python `dict.get(ch, True)` default is the caller's concern
when building a `Doctor` value. -/
structure Doctor where
  id : Nat
  is_active : Bool
  prefs_email : Bool := true
  prefs_sms : Bool := true
  prefs_whatsapp : Bool := true
  prefs_push : Bool := true
  deriving Repr, DecidableEq

/-! ## Acknowledge state machine
(`acknowledge_report`, report_distribution.py lines 535-573) -/

/-- The mutation the `POST /reports/{id}/acknowledge` handler applies to a
distribution row for a given `action`, at wall-clock time `now`.
Translated branch by branch from report_distribution.py lines 551-564. -/
def acknowledge_update (d : ReportDistribution) (action : String) (now : Nat) :
    ReportDistribution :=
  if action = "view" then
    let d := { d with viewed_at := some now }
    if d.delivery_status = "pending" ∨ d.delivery_status = "sent" then
      { d with delivery_status := "delivered" }
    else d
  else if action = "download" then
    { d with downloaded_at := some now, delivery_status := "read" }
  else if action = "print" then
    { d with printed_at := some now }
  else if action = "acknowledge" then
    { d with acknowledged_at := some now, delivery_status := "read" }
  else d

/-- The whole `acknowledge_report` route: looks up the row by internal id,
404s when absent, otherwise applies `acknowledge_update` and commits.
Returns the updated table together with the updated row. -/
def acknowledge_report (dbs : List ReportDistribution) (distribution_id : Nat)
    (action : String) (now : Nat) :
    Except String (List ReportDistribution × ReportDistribution) :=
  match dbs.find? (fun d => d.id == distribution_id) with
  | none => .error ("Distribution not found")
  | some distribution =>
      let d := acknowledge_update distribution action now
      .ok (dbs.map (fun x => if x.id == distribution_id then d else x), d)

/-! ## Helper facts about `acknowledge_update` -/

theorem acknowledge_update_status_of_read (d : ReportDistribution) (action : String)
    (now : Nat) (h : d.delivery_status = "read") :
    (acknowledge_update d action now).delivery_status = "read" := by
  unfold acknowledge_update
  split_ifs <;> simp_all

/-! ## Claim C3 -/

/-- C3: once a DistributionRecord's `delivery_status` is `"read"`, no
subsequent acknowledge call — any action, in particular the four the route
accepts (`view`, `download`, `print`, `acknowledge`) — regresses the status
to `"pending"` or `"sent"`. -/
theorem read_status_never_regresses (d : ReportDistribution) (action : String)
    (now : Nat) (h : d.delivery_status = "read") :
    ¬((acknowledge_update d action now).delivery_status = "pending" ∨
      (acknowledge_update d action now).delivery_status = "sent") := by
  have hr := acknowledge_update_status_of_read d action now h
  rw [hr]
  intro hc
  rcases hc with hc | hc <;> simp_all

/-- Witness for C3: a concrete already-read record acknowledged again. -/
theorem read_status_never_regresses_witness :
    ({ id := 1, distribution_id := "RD-1", lab_result_id := 7, patient_id := 3,
       branch_id := 1, doctor_id := 2, report_type := "Pathology",
       report_name := "CBC", delivery_status := "read", delivery_method := "portal",
       priority := "normal", created_by := 9, is_urgent := false,
       viewed_at := some 5 : ReportDistribution}).delivery_status = "read" ∧
    ¬((acknowledge_update
        { id := 1, distribution_id := "RD-1", lab_result_id := 7, patient_id := 3,
          branch_id := 1, doctor_id := 2, report_type := "Pathology",
          report_name := "CBC", delivery_status := "read", delivery_method := "portal",
          priority := "normal", created_by := 9, is_urgent := false,
          viewed_at := some 5 } "view" 9).delivery_status = "pending" ∨
      (acknowledge_update
        { id := 1, distribution_id := "RD-1", lab_result_id := 7, patient_id := 3,
          branch_id := 1, doctor_id := 2, report_type := "Pathology",
          report_name := "CBC", delivery_status := "read", delivery_method := "portal",
          priority := "normal", created_by := 9, is_urgent := false,
          viewed_at := some 5 } "view" 9).delivery_status = "sent") :=
  ⟨rfl, read_status_never_regresses _ "view" 9 rfl⟩

/-! ## ConnectionManager (websocket_service.py)

The manager's mutable dictionaries become functions out of the key type;
the transport-level socket of each user is modelled by `sent_log`, the
list of frames pushed to that user's websocket, in order.  The
`user_info` bookkeeping is reduced to the `subscribed_channels` list
(`user_channels`); connect time, username and the Redis handle play no
role in the embedded operations. -/

/-- The `Notification` dataclass (the fixed envelope; the free-form `data`
dict is not inspected by any embedded operation).  `ntype` stands for the
Python field `type`, a Lean keyword. -/
structure Notification where
  id : String
  ntype : String
  title : String
  message : String
  priority : String := "normal"
  action_url : Option String := none
  reference_id : Option String := none
  reference_type : Option String := none
  deriving Repr, DecidableEq

/-- Point update of a dictionary-as-function. -/
def updateFn {κ α : Type} [DecidableEq κ] (f : κ → α) (k : κ) (v : α) : κ → α :=
  fun k' => if k' = k then v else f k'

/-- `set.add`: insert a user id into a channel's subscriber set. -/
def setInsert (l : List Nat) (x : Nat) : List Nat :=
  if x ∈ l then l else l ++ [x]

structure ConnectionManager where
  /-- `self.active_connections` — user ids holding a live websocket. -/
  active_connections : List Nat
  /-- frames pushed over each user's live websocket (`websocket.send_json`). -/
  sent_log : Nat → List Notification
  /-- `self.notification_queues` — per-user offline queue. -/
  notification_queues : Nat → List Notification
  /-- `self.user_info[u].subscribed_channels`. -/
  user_channels : Nat → List String
  /-- `self.channels` — channel name → subscriber set. -/
  channels : String → List Nat

/-- A freshly constructed `ConnectionManager()`. -/
def ConnectionManager.empty : ConnectionManager where
  active_connections := []
  sent_log := fun _ => []
  notification_queues := fun _ => []
  user_channels := fun _ => []
  channels := fun _ => []

/-- `ConnectionManager.send_personal_notification` (lines 155-165): deliver
over the live socket when one exists (returning `true`), otherwise append
to the user's offline queue (returning `false`). -/
def send_personal_notification (cm : ConnectionManager) (user_id : Nat)
    (notification : Notification) : ConnectionManager × Bool :=
  if user_id ∈ cm.active_connections then
    let log := cm.sent_log user_id ++ [notification]
    ({ cm with sent_log := updateFn cm.sent_log user_id log }, true)
  else
    let q := cm.notification_queues user_id ++ [notification]
    ({ cm with notification_queues := updateFn cm.notification_queues user_id q }, false)

/-- `ConnectionManager._send_pending_notifications` (lines 218-227): if the
user is connected, push every queued notification in list order over the
socket and clear the queue; otherwise leave the queue untouched. -/
def send_pending_notifications (cm : ConnectionManager) (user_id : Nat) :
    ConnectionManager :=
  let notifications := cm.notification_queues user_id
  if user_id ∈ cm.active_connections then
    { cm with
      sent_log := updateFn cm.sent_log user_id (cm.sent_log user_id ++ notifications),
      notification_queues := updateFn cm.notification_queues user_id [] }
  else cm

/-- First step of `connect`: `self.active_connections[user_id] = websocket`. -/
def connect_register (cm : ConnectionManager) (user_id : Nat) : ConnectionManager :=
  { cm with active_connections :=
      if user_id ∈ cm.active_connections then cm.active_connections
      else user_id :: cm.active_connections }

/-- Second step of `connect`: fresh `UserConnection`, subscription to the
private per-user channel, and to the role channel when not already in it. -/
def connect_subscribe (cm : ConnectionManager) (user_id : Nat)
    (user_type : String) : ConnectionManager :=
  let cm := { cm with user_channels := updateFn cm.user_channels user_id [] }
  let private_channel := "user:" ++ toString user_id
  let privSubs := setInsert (cm.channels private_channel) user_id
  let privList := cm.user_channels user_id ++ [private_channel]
  let cm := { cm with
    channels := updateFn cm.channels private_channel privSubs,
    user_channels := updateFn cm.user_channels user_id privList }
  let role_channel := "role:" ++ user_type
  if user_id ∈ cm.channels role_channel then cm
  else
    let roleSubs := setInsert (cm.channels role_channel) user_id
    let roleList := cm.user_channels user_id ++ [role_channel]
    { cm with
      channels := updateFn cm.channels role_channel roleSubs,
      user_channels := updateFn cm.user_channels user_id roleList }

/-- `ConnectionManager.connect` (lines 106-135): register the socket,
create a fresh `UserConnection`, subscribe the user to their private and
role channels, then flush the offline queue. -/
def connect (cm : ConnectionManager) (user_id : Nat) (user_type : String) :
    ConnectionManager :=
  send_pending_notifications (connect_subscribe (connect_register cm user_id) user_id user_type) user_id

/-! ### Component lemmas for `connect` -/

theorem connect_subscribe_active (cm : ConnectionManager) (u : Nat) (ut : String) :
    (connect_subscribe cm u ut).active_connections = cm.active_connections := by
  unfold connect_subscribe
  dsimp only
  split <;> rfl

theorem connect_subscribe_sent_log (cm : ConnectionManager) (u : Nat) (ut : String) :
    (connect_subscribe cm u ut).sent_log = cm.sent_log := by
  unfold connect_subscribe
  dsimp only
  split <;> rfl

theorem connect_subscribe_queues (cm : ConnectionManager) (u : Nat) (ut : String) :
    (connect_subscribe cm u ut).notification_queues = cm.notification_queues := by
  unfold connect_subscribe
  dsimp only
  split <;> rfl

theorem mem_connect_register_active (cm : ConnectionManager) (u : Nat) :
    u ∈ (connect_register cm u).active_connections := by
  unfold connect_register
  dsimp only
  split <;> simp_all

/-- After `connect`, the user's socket has received the whole offline queue
in enqueue order and the queue is empty. -/
theorem connect_flushes (cm : ConnectionManager) (u : Nat) (ut : String) :
    (connect cm u ut).sent_log u = cm.sent_log u ++ cm.notification_queues u ∧
    (connect cm u ut).notification_queues u = [] := by
  unfold connect send_pending_notifications
  have hu : u ∈ (connect_subscribe (connect_register cm u) u ut).active_connections := by
    rw [connect_subscribe_active]
    exact mem_connect_register_active cm u
  rw [if_pos hu]
  simp [connect_subscribe_sent_log, connect_subscribe_queues, connect_register, updateFn]

/-- An offline `send_personal_notification` only appends to the user's
queue. -/
theorem send_personal_offline (cm : ConnectionManager) (u : Nat)
    (n : Notification) (hoff : u ∉ cm.active_connections) :
    (send_personal_notification cm u n).1 =
      { cm with notification_queues :=
          updateFn cm.notification_queues u (cm.notification_queues u ++ [n]) } := by
  unfold send_personal_notification
  rw [if_neg hoff]

/-! ## Claim C4 -/

/-- C4: a recipient `r` with no live connection receives notifications
published while offline — `n1, n2, n3`, queued in that order — exactly
once, in publish order, the moment `r` connects; the offline queue is
empty afterwards. -/
theorem offline_queue_fifo (cm cm1 cm2 cm3 cm4 : ConnectionManager)
    (r : Nat) (user_type : String) (n1 n2 n3 : Notification)
    (hoff : r ∉ cm.active_connections)
    (hq : cm.notification_queues r = [])
    (e1 : (send_personal_notification cm r n1).1 = cm1)
    (e2 : (send_personal_notification cm1 r n2).1 = cm2)
    (e3 : (send_personal_notification cm2 r n3).1 = cm3)
    (e4 : connect cm3 r user_type = cm4) :
    cm4.sent_log r = cm.sent_log r ++ [n1, n2, n3] ∧
    cm4.notification_queues r = [] := by
  rw [send_personal_offline cm r n1 hoff] at e1
  have hoff1 : r ∉ cm1.active_connections := by rw [← e1]; exact hoff
  rw [send_personal_offline cm1 r n2 hoff1] at e2
  have hoff2 : r ∉ cm2.active_connections := by rw [← e2]; exact hoff1
  rw [send_personal_offline cm2 r n3 hoff2] at e3
  have hq3 : cm3.notification_queues r = [n1, n2, n3] := by
    rw [← e3, ← e2, ← e1]
    simp [updateFn, hq]
  have hs3 : cm3.sent_log r = cm.sent_log r := by
    rw [← e3, ← e2, ← e1]
  have := connect_flushes cm3 r user_type
  rw [e4, hq3, hs3] at this
  exact this

/-- Witness for C4: the empty manager, user 7, three concrete
notifications. -/
theorem offline_queue_fifo_witness :
    (7 : Nat) ∉ ConnectionManager.empty.active_connections ∧
    ConnectionManager.empty.notification_queues 7 = [] ∧
    ((connect
        (send_personal_notification
          (send_personal_notification
            (send_personal_notification ConnectionManager.empty 7
              { id := "N1", ntype := "report_ready", title := "t1", message := "m1" }).1
            7 { id := "N2", ntype := "report_ready", title := "t2", message := "m2" }).1
          7 { id := "N3", ntype := "report_ready", title := "t3", message := "m3" }).1
        7 "doctor").sent_log 7 =
      ConnectionManager.empty.sent_log 7 ++
        [{ id := "N1", ntype := "report_ready", title := "t1", message := "m1" },
         { id := "N2", ntype := "report_ready", title := "t2", message := "m2" },
         { id := "N3", ntype := "report_ready", title := "t3", message := "m3" }] ∧
     (connect
        (send_personal_notification
          (send_personal_notification
            (send_personal_notification ConnectionManager.empty 7
              { id := "N1", ntype := "report_ready", title := "t1", message := "m1" }).1
            7 { id := "N2", ntype := "report_ready", title := "t2", message := "m2" }).1
          7 { id := "N3", ntype := "report_ready", title := "t3", message := "m3" }).1
        7 "doctor").notification_queues 7 = []) :=
  ⟨by simp [ConnectionManager.empty], rfl,
    offline_queue_fifo ConnectionManager.empty _ _ _ _ 7 "doctor" _ _ _
      (by simp [ConnectionManager.empty]) rfl rfl rfl rfl rfl⟩

/-! ## Claim C7 -/

/-- A sample notification used by the unboundedness construction. -/
def demoNotif : Notification :=
  { id := "N0", ntype := "report_ready", title := "t", message := "m" }

/-- `k` successive publishes to user 1 of an empty manager while user 1 is
offline. -/
def spamOffline : Nat → ConnectionManager
  | 0 => ConnectionManager.empty
  | k + 1 => (send_personal_notification (spamOffline k) 1 demoNotif).1

theorem spamOffline_active (k : Nat) :
    (spamOffline k).active_connections = [] := by
  induction k with
  | zero => rfl
  | succ k ih =>
      simp only [spamOffline, send_personal_notification]
      rw [ih]
      simp

theorem spamOffline_queue_length (k : Nat) :
    ((spamOffline k).notification_queues 1).length = k := by
  induction k with
  | zero => rfl
  | succ k ih =>
      simp only [spamOffline, send_personal_notification]
      rw [spamOffline_active k]
      simp [updateFn, ih]

/-- Counterexample to C7: no cap bounds the offline queue — for every
candidate cap, enough offline publishes push user 1's queue past it. -/
theorem offline_queue_no_cap :
    ¬ ∃ cap : Nat, ∀ k : Nat,
        ((spamOffline k).notification_queues 1).length ≤ cap := by
  rintro ⟨cap, hcap⟩
  have h := hcap (cap + 1)
  rw [spamOffline_queue_length] at h
  omega

/-- C7 as amended: the offline queue is unbounded — every publish to an
offline recipient appends to the queue, growing it by exactly one; no cap
or drop policy exists in the code. -/
theorem offline_enqueue_grows_by_one (cm : ConnectionManager) (user_id : Nat)
    (n : Notification) (hoff : user_id ∉ cm.active_connections) :
    ((send_personal_notification cm user_id n).1.notification_queues user_id).length
      = (cm.notification_queues user_id).length + 1 := by
  simp [send_personal_notification, if_neg hoff, updateFn]

/-- Witness for the amended C7. -/
theorem offline_enqueue_grows_by_one_witness :
    (1 : Nat) ∉ ConnectionManager.empty.active_connections ∧
    ((send_personal_notification ConnectionManager.empty 1 demoNotif).1.notification_queues 1).length
      = (ConnectionManager.empty.notification_queues 1).length + 1 :=
  ⟨by simp [ConnectionManager.empty],
    offline_enqueue_grows_by_one ConnectionManager.empty 1 demoNotif
      (by simp [ConnectionManager.empty])⟩

/-! ## Distribution and channel dispatch (report_distribution.py) -/

/-- `NotificationFactory.create_report_ready_notification`
(websocket_service.py lines 273-297); the random uuid-based id is a
parameter (`nid`). -/
def create_report_ready_notification (patient_name report_id report_type : String)
    (nid : String) : Notification :=
  { id := nid,
    ntype := "report_ready",
    title := "Report Ready",
    message := "New " ++ report_type ++ " report ready for patient " ++ patient_name,
    priority := "normal",
    action_url := some ("/reports/" ++ report_id),
    reference_id := some report_id,
    reference_type := some ("lab_result") }

/-- The exception raised at report_distribution.py line 165: the email
branch does `await email_service.send_report_ready(...)`, but
`EmailService.send_report_ready` (email_service.py line 176) is a plain
synchronous `def` returning `bool`, and awaiting a `bool` raises. -/
def emailAwaitTypeError : String :=
  "TypeError: object bool can't be used in 'await' expression"

/-- The record state dispatch commits when it runs to completion, i.e.
when the email branch is not entered (lines 173-225): each remaining
opted-in requested channel gets its attempted flag+timestamp — the
sms/whatsapp providers contain their own exceptions and return response
objects whose `success` flag the route discards — and the record is
unconditionally advanced to `sent`.  The email flags are never set on
this path (the email branch, when entered, crashes before setting them). -/
def dispatched_record (distribution : ReportDistribution) (doctor : Doctor)
    (delivery_methods : List String) (now : Nat) : ReportDistribution :=
  let smsOn := decide ("sms" ∈ delivery_methods) && doctor.prefs_sms
  let whatsappOn := decide ("whatsapp" ∈ delivery_methods) && doctor.prefs_whatsapp
  let pushOn := decide ("push" ∈ delivery_methods) && doctor.prefs_push
  { distribution with
    sms_sent := if smsOn then true else distribution.sms_sent,
    sms_sent_at := if smsOn then some now else distribution.sms_sent_at,
    whatsapp_sent := if whatsappOn then true else distribution.whatsapp_sent,
    whatsapp_sent_at := if whatsappOn then some now else distribution.whatsapp_sent_at,
    push_sent := if pushOn then true else distribution.push_sent,
    push_sent_at := if pushOn then some now else distribution.push_sent_at,
    delivery_status := "sent",
    sent_at := some now }

/-- `send_report_notifications` (report_distribution.py lines 136-228).

The portal notification goes through the ConnectionManager first (line
160).  The email branch is then entered when `"email"` is requested and
the doctor has not opted out — and it crashes: line 165 awaits the
synchronous bool-returning `EmailService.send_report_ready`, raising a
`TypeError` before `email_sent` is set, before the sms/whatsapp/push
branches run and before the status update, so the record keeps the state
it was passed in and the exception propagates to the caller (`.error`).
When email is not attempted the function completes and commits
`dispatched_record` (`.ok`).  `outcomes` — the per-channel
provider-reported result — is never read, as the source discards those
return values.  The `DoctorNotification` push-audit row (a separate
table no claim reads) is not carried in the state; `patient_name` stands
for the Patient lookup. -/
def send_report_notifications (ws : ConnectionManager) (lab_result : LabResult)
    (patient_name : String) (doctor : Doctor) (distribution : ReportDistribution)
    (delivery_methods : List String) (nid : String)
    (outcomes : String → Bool) (now : Nat) :
    ConnectionManager × Except String ReportDistribution :=
  let notification := create_report_ready_notification patient_name
      (toString distribution.id) lab_result.test_category nid
  let ws := (send_personal_notification ws doctor.id notification).1
  let emailOn := decide ("email" ∈ delivery_methods) && doctor.prefs_email
  (ws,
    if emailOn then .error emailAwaitTypeError
    else .ok (dispatched_record distribution doctor delivery_methods now))

/-- The create-and-dispatch tail of `distribute_report_to_doctor`
(lines 107-133): build the row in `pending` state and commit it
(`db.add`/`db.commit`, so the pending row is durable before dispatch
runs), then run `send_report_notifications`.  If dispatch completes, the
mutated row is committed in its place; if dispatch raises, the pending
row remains and the exception propagates.  `new_id` and
`new_distribution_id` stand for the DB-assigned primary key and
`generate_distribution_id()`. -/
def distribute_create (dbs : List ReportDistribution) (ws : ConnectionManager)
    (lab_result : LabResult) (patient_name : String) (doctor : Doctor)
    (branch_id : Nat) (delivery_methods : List String) (priority : String)
    (created_by : Nat) (new_id : Nat) (new_distribution_id : String)
    (nid : String) (outcomes : String → Bool) (now : Nat) :
    List ReportDistribution × ConnectionManager × Except String ReportDistribution :=
  let delivery_method := delivery_methods.headD ("portal")
  let distribution : ReportDistribution :=
    { id := new_id,
      distribution_id := new_distribution_id,
      lab_result_id := lab_result.id,
      patient_id := lab_result.patient_id,
      branch_id := branch_id,
      doctor_id := doctor.id,
      report_type := lab_result.test_category,
      report_name := lab_result.test_name,
      delivery_status := "pending",
      delivery_method := delivery_method,
      priority := priority,
      created_by := created_by,
      is_urgent := decide (priority = "urgent"),
      created_at := now }
  let wsd := send_report_notifications ws lab_result patient_name doctor
      distribution delivery_methods nid outcomes now
  match wsd.2 with
  | .error e => (dbs ++ [distribution], wsd.1, .error e)
  | .ok d => (dbs ++ [d], wsd.1, .ok d)

/-- `distribute_report_to_doctor` (report_distribution.py lines 85-133):
look for an existing row for the `(lab result, doctor)` pair; reuse it
unless it is `failed`, otherwise create and dispatch a fresh one.  The
`Except` carries the `TypeError` the email branch of dispatch raises. -/
def distribute_report_to_doctor (dbs : List ReportDistribution)
    (ws : ConnectionManager) (lab_result : LabResult) (patient_name : String)
    (doctor : Doctor) (branch_id : Nat) (delivery_methods : List String)
    (priority : String) (created_by : Nat) (new_id : Nat)
    (new_distribution_id : String) (nid : String) (outcomes : String → Bool)
    (now : Nat) :
    List ReportDistribution × ConnectionManager × Except String ReportDistribution :=
  match dbs.find? (fun d => d.lab_result_id == lab_result.id && d.doctor_id == doctor.id) with
  | some existing =>
      if ¬ existing.delivery_status = "failed" then (dbs, ws, .ok existing)
      else distribute_create dbs ws lab_result patient_name doctor branch_id
        delivery_methods priority created_by new_id new_distribution_id nid outcomes now
  | none => distribute_create dbs ws lab_result patient_name doctor branch_id
      delivery_methods priority created_by new_id new_distribution_id nid outcomes now

/-! ### Dispatch facts -/

theorem send_report_notifications_snd (ws : ConnectionManager)
    (lab_result : LabResult) (pn : String) (doctor : Doctor)
    (d : ReportDistribution) (dm : List String) (nid : String)
    (oc : String → Bool) (now : Nat) :
    (send_report_notifications ws lab_result pn doctor d dm nid oc now).2 =
      if decide ("email" ∈ dm) && doctor.prefs_email then .error emailAwaitTypeError
      else .ok (dispatched_record d doctor dm now) :=
  rfl

theorem dispatched_record_fields (d : ReportDistribution) (doctor : Doctor)
    (dm : List String) (now : Nat) :
    (dispatched_record d doctor dm now).delivery_status = "sent" ∧
    (dispatched_record d doctor dm now).lab_result_id = d.lab_result_id ∧
    (dispatched_record d doctor dm now).doctor_id = d.doctor_id :=
  ⟨rfl, rfl, rfl⟩

/-! ### Concrete sample data -/

def demoLab : LabResult :=
  { id := 7, patient_id := 3, branch_id := 1, test_category := "Pathology",
    test_name := "CBC" }

def demoDoctor : Doctor := { id := 2, is_active := true }

def demoPending : ReportDistribution :=
  { id := 100, distribution_id := "RD-X", lab_result_id := 7, patient_id := 3,
    branch_id := 1, doctor_id := 2, report_type := "Pathology",
    report_name := "CBC", delivery_status := "pending",
    delivery_method := "portal", priority := "normal", created_by := 9,
    is_urgent := false }

def demoRead : ReportDistribution :=
  { id := 5, distribution_id := "RD-R", lab_result_id := 7, patient_id := 3,
    branch_id := 1, doctor_id := 2, report_type := "Pathology",
    report_name := "CBC", delivery_status := "read",
    delivery_method := "portal", priority := "normal", created_by := 9,
    is_urgent := false }

/-! ## Claim C1 -/

/-- C1: starting from a table with no row for the `(lab result, doctor)`
pair, two `distribute_report_to_doctor` calls for that pair with no
intervening failure — the first call returned normally (`.ok`), which in
particular rules out the email-branch `TypeError` — leave exactly one
non-failed row for the pair, the second call changes nothing, and it
returns the very record the first call created. -/
theorem distribute_twice_idempotent
    (dbs dbs1 dbs2 : List ReportDistribution) (ws ws1 ws2 : ConnectionManager)
    (r1 : ReportDistribution) (o2 : Except String ReportDistribution)
    (lab_result : LabResult)
    (pn1 pn2 : String) (doctor : Doctor) (bid : Nat)
    (dm1 dm2 : List String) (prio1 prio2 : String) (cb1 cb2 : Nat)
    (id1 id2 : Nat) (did1 did2 nid1 nid2 : String) (oc1 oc2 : String → Bool)
    (t1 t2 : Nat)
    (hfresh : dbs.find? (fun d => d.lab_result_id == lab_result.id &&
        d.doctor_id == doctor.id) = none)
    (e1 : distribute_report_to_doctor dbs ws lab_result pn1 doctor bid dm1
        prio1 cb1 id1 did1 nid1 oc1 t1 = (dbs1, ws1, Except.ok r1))
    (e2 : distribute_report_to_doctor dbs1 ws1 lab_result pn2 doctor bid dm2
        prio2 cb2 id2 did2 nid2 oc2 t2 = (dbs2, ws2, o2)) :
    o2 = Except.ok r1 ∧ dbs2 = dbs1 ∧
    (dbs2.filter (fun d => d.lab_result_id == lab_result.id &&
        d.doctor_id == doctor.id && !(d.delivery_status == "failed"))).length = 1 := by
  have h1 : distribute_create dbs ws lab_result pn1 doctor bid dm1 prio1 cb1
      id1 did1 nid1 oc1 t1 = (dbs1, ws1, Except.ok r1) := by
    rw [← e1]
    unfold distribute_report_to_doctor
    rw [hfresh]
  simp only [distribute_create] at h1
  rw [send_report_notifications_snd] at h1
  by_cases hem : (decide ("email" ∈ dm1) && doctor.prefs_email) = true
  · rw [if_pos hem] at h1
    simp [Prod.ext_iff] at h1
  rw [if_neg hem] at h1
  obtain ⟨hd1, hw1, hr1⟩ : _ ∧ _ ∧ _ := by
    simpa [Prod.ext_iff] using h1
  have hst : r1.delivery_status = "sent" := by
    rw [← hr1]
    rfl
  have hlr : r1.lab_result_id = lab_result.id := by
    rw [← hr1]
    rfl
  have hdoc : r1.doctor_id = doctor.id := by
    rw [← hr1]
    rfl
  have hp : (r1.lab_result_id == lab_result.id && r1.doctor_id == doctor.id) = true := by
    rw [hlr, hdoc]
    simp
  rw [hr1] at hd1
  have hfind1 : dbs1.find? (fun d => d.lab_result_id == lab_result.id &&
      d.doctor_id == doctor.id) = some r1 := by
    rw [← hd1, List.find?_append, hfresh]
    simp [List.find?, hp]
  have hns : ¬ r1.delivery_status = "failed" := by
    rw [hst]
    decide
  have h2 : (dbs1, ws1, Except.ok r1) = (dbs2, ws2, o2) := by
    rw [← e2]
    simp only [distribute_report_to_doctor, hfind1]
    rw [if_pos hns]
  obtain ⟨hd2, hw2, hr2⟩ : _ ∧ _ ∧ _ := by
    simpa [Prod.ext_iff] using h2
  refine ⟨hr2.symm, hd2.symm, ?_⟩
  rw [← hd2, ← hd1]
  have hnone : ∀ d ∈ dbs, ¬(d.lab_result_id == lab_result.id &&
      d.doctor_id == doctor.id) = true := List.find?_eq_none.mp hfresh
  rw [List.filter_append]
  have hnil : dbs.filter (fun d => d.lab_result_id == lab_result.id &&
      d.doctor_id == doctor.id && !(d.delivery_status == "failed")) = [] := by
    rw [List.filter_eq_nil_iff]
    intro d hd hq
    have hnp := hnone d hd
    simp only [Bool.and_eq_true] at hq hnp
    exact hnp hq.1
  rw [hnil]
  simp [List.filter, hp, hst]

def c1_call1 : List ReportDistribution × ConnectionManager × Except String ReportDistribution :=
  distribute_report_to_doctor [] ConnectionManager.empty demoLab "Asha Rao"
    demoDoctor 1 ["portal"] "normal" 9 100 "RD-A" "NA" (fun _ => true) 10

def c1_call2 : List ReportDistribution × ConnectionManager × Except String ReportDistribution :=
  distribute_report_to_doctor c1_call1.1 c1_call1.2.1 demoLab "Asha Rao"
    demoDoctor 1 ["portal"] "normal" 9 101 "RD-B" "NB" (fun _ => true) 20

/-- The record the first concrete call creates and dispatches. -/
def c1_r1 : ReportDistribution :=
  { id := 100, distribution_id := "RD-A", lab_result_id := 7, patient_id := 3,
    branch_id := 1, doctor_id := 2, report_type := "Pathology",
    report_name := "CBC", delivery_status := "sent",
    delivery_method := "portal", priority := "normal", created_by := 9,
    is_urgent := false, sent_at := some 10, created_at := 10 }

/-- Witness for C1: two concrete calls on an initially empty table, with
a delivery-method list (`["portal"]`) on which dispatch completes. -/
theorem distribute_twice_idempotent_witness :
    (([] : List ReportDistribution).find? (fun d => d.lab_result_id == demoLab.id &&
        d.doctor_id == demoDoctor.id) = none ∧
      distribute_report_to_doctor [] ConnectionManager.empty demoLab "Asha Rao"
        demoDoctor 1 ["portal"] "normal" 9 100 "RD-A" "NA" (fun _ => true) 10 =
        (c1_call1.1, c1_call1.2.1, Except.ok c1_r1)) ∧
    (c1_call2.2.2 = Except.ok c1_r1 ∧ c1_call2.1 = c1_call1.1 ∧
      (c1_call2.1.filter (fun d => d.lab_result_id == demoLab.id &&
          d.doctor_id == demoDoctor.id &&
          !(d.delivery_status == "failed"))).length = 1) :=
  ⟨⟨rfl, rfl⟩,
    distribute_twice_idempotent [] c1_call1.1 c1_call2.1
      ConnectionManager.empty c1_call1.2.1 c1_call2.2.1
      c1_r1 c1_call2.2.2 demoLab "Asha Rao" "Asha Rao" demoDoctor 1
      ["portal"] ["portal"] "normal" "normal" 9 9 100 101
      "RD-A" "RD-B" "NA" "NB" (fun _ => true) (fun _ => true) 10 20
      rfl rfl rfl⟩

/-! ## Claim C2 -/

/-- Counterexample to C2: two concrete dispatches in which every provider
fails on every attempted channel, and in neither does the record become
`failed`.  With email among the channels, dispatch crashes at the email
`await` (the synchronous bool-returning `send_report_ready` is awaited)
and the freshly created row stays `pending`; without email, the provider
failures are discarded and the record is marked `sent`. -/
theorem all_channel_failures_never_failed :
    (distribute_create [] ConnectionManager.empty demoLab "Asha Rao" demoDoctor 1
        ["email", "sms", "whatsapp", "push"] "normal" 9 100 "RD-A" "NA"
        (fun _ => false) 10).2.2 = .error emailAwaitTypeError ∧
    ((distribute_create [] ConnectionManager.empty demoLab "Asha Rao" demoDoctor 1
        ["email", "sms", "whatsapp", "push"] "normal" 9 100 "RD-A" "NA"
        (fun _ => false) 10).1.map (fun d => d.delivery_status)) = ["pending"] ∧
    ((send_report_notifications ConnectionManager.empty demoLab "Asha Rao"
        demoDoctor demoPending ["sms", "whatsapp", "push"] "NX"
        (fun _ => false) 10).2.map (fun d => d.delivery_status)) = Except.ok "sent" ∧
    ("pending" : String) ≠ "failed" ∧ ("sent" : String) ≠ "failed" :=
  ⟨rfl, rfl, rfl, by decide, by decide⟩

/-- C2 as amended: dispatch never sets `failed`.  When email is among the
attempted channels, `send_report_notifications` itself raises the
`TypeError` of awaiting the synchronous email sender before touching the
record, leaving it as it was (`pending` for a fresh row); when email is
not attempted, the provider-reported channel outcomes are discarded and
the record is unconditionally marked `sent`.  Either way no record ever
reaches `failed`, so a later distribute call for the pair finds a
non-failed record and reuses it. -/
theorem send_report_notifications_never_failed (ws : ConnectionManager)
    (lab_result : LabResult) (pn : String) (doctor : Doctor)
    (d : ReportDistribution) (dm : List String) (nid : String)
    (oc : String → Bool) (now : Nat) :
    ((decide ("email" ∈ dm) && doctor.prefs_email) = true →
      (send_report_notifications ws lab_result pn doctor d dm nid oc now).2 =
        .error emailAwaitTypeError) ∧
    ((decide ("email" ∈ dm) && doctor.prefs_email) = false →
      (send_report_notifications ws lab_result pn doctor d dm nid oc now).2 =
        .ok (dispatched_record d doctor dm now) ∧
      (dispatched_record d doctor dm now).delivery_status = "sent") ∧
    (∀ r, (send_report_notifications ws lab_result pn doctor d dm nid oc now).2 =
        .ok r → ¬ r.delivery_status = "failed") := by
  refine ⟨?_, ?_, ?_⟩
  · intro hem
    rw [send_report_notifications_snd, if_pos hem]
  · intro hem
    rw [send_report_notifications_snd, if_neg (by simp [hem])]
    exact ⟨rfl, rfl⟩
  · intro r hr
    rw [send_report_notifications_snd] at hr
    by_cases hem : (decide ("email" ∈ dm) && doctor.prefs_email) = true
    · rw [if_pos hem] at hr
      simp at hr
    · rw [if_neg hem] at hr
      have hinj : dispatched_record d doctor dm now = r := by simpa using hr
      intro hc
      rw [← hinj] at hc
      exact absurd (show ("sent" : String) = "failed" from hc) (by decide)

/-- Witness for the amended C2: a concrete email-attempted dispatch. -/
theorem send_report_notifications_never_failed_witness :
    ((decide ("email" ∈ ["email", "sms"]) && demoDoctor.prefs_email) = true →
      (send_report_notifications ConnectionManager.empty demoLab "Asha Rao"
        demoDoctor demoPending ["email", "sms"] "NX" (fun _ => false) 10).2 =
        .error emailAwaitTypeError) ∧
    ((decide ("email" ∈ ["email", "sms"]) && demoDoctor.prefs_email) = false →
      (send_report_notifications ConnectionManager.empty demoLab "Asha Rao"
        demoDoctor demoPending ["email", "sms"] "NX" (fun _ => false) 10).2 =
        .ok (dispatched_record demoPending demoDoctor ["email", "sms"] 10) ∧
      (dispatched_record demoPending demoDoctor ["email", "sms"] 10).delivery_status = "sent") ∧
    (∀ r, (send_report_notifications ConnectionManager.empty demoLab "Asha Rao"
        demoDoctor demoPending ["email", "sms"] "NX" (fun _ => false) 10).2 =
        .ok r → ¬ r.delivery_status = "failed") :=
  send_report_notifications_never_failed ConnectionManager.empty demoLab "Asha Rao"
    demoDoctor demoPending ["email", "sms"] "NX" (fun _ => false) 10

/-! ## Claim C8 -/

/-- Counterexample to C8: a second `view` acknowledge on an already-read
record overwrites `viewed_at` — timestamps are not first-write-wins. -/
theorem second_view_overwrites_viewed_at :
    (acknowledge_update (acknowledge_update demoRead "view" 5) "view" 9).viewed_at ≠
      (acknowledge_update demoRead "view" 5).viewed_at := by
  decide

/-- C8 as amended: an acknowledge on an already-`read` record is accepted
(the route answers ok, not an error) and the status stays `read`; but the
`viewed_at`/`downloaded_at` (and `acknowledged_at`/`printed_at`)
timestamps are last-write-wins — each call overwrites the matching
timestamp with the current time. -/
theorem acknowledge_read_accepted_last_write_wins
    (dbs : List ReportDistribution) (i now : Nat) (action : String)
    (d : ReportDistribution)
    (hfind : dbs.find? (fun x => x.id == i) = some d)
    (hread : d.delivery_status = "read") :
    acknowledge_report dbs i action now =
      .ok (dbs.map (fun x => if x.id == i then acknowledge_update d action now else x),
           acknowledge_update d action now) ∧
    (acknowledge_update d action now).delivery_status = "read" ∧
    (action = "view" → (acknowledge_update d action now).viewed_at = some now) ∧
    (action = "download" → (acknowledge_update d action now).downloaded_at = some now) ∧
    (action = "acknowledge" → (acknowledge_update d action now).acknowledged_at = some now) ∧
    (action = "print" → (acknowledge_update d action now).printed_at = some now) := by
  refine ⟨?_, acknowledge_update_status_of_read d action now hread, ?_, ?_, ?_, ?_⟩
  · unfold acknowledge_report
    rw [hfind]
  · intro h
    subst h
    simp only [acknowledge_update]
    rw [if_pos trivial]
    split <;> rfl
  · intro h
    subst h
    simp [acknowledge_update]
  · intro h
    subst h
    simp [acknowledge_update]
  · intro h
    subst h
    simp [acknowledge_update]

/-- Witness for the amended C8: a second `view` on a concrete read
record. -/
theorem acknowledge_read_accepted_witness :
    ([demoRead].find? (fun x => x.id == 5) = some demoRead ∧
      demoRead.delivery_status = "read") ∧
    (acknowledge_report [demoRead] 5 "view" 9 =
      .ok ([demoRead].map (fun x => if x.id == 5 then acknowledge_update demoRead "view" 9 else x),
           acknowledge_update demoRead "view" 9) ∧
    (acknowledge_update demoRead "view" 9).delivery_status = "read" ∧
    ("view" = "view" → (acknowledge_update demoRead "view" 9).viewed_at = some 9) ∧
    ("view" = "download" → (acknowledge_update demoRead "view" 9).downloaded_at = some 9) ∧
    ("view" = "acknowledge" → (acknowledge_update demoRead "view" 9).acknowledged_at = some 9) ∧
    ("view" = "print" → (acknowledge_update demoRead "view" 9).printed_at = some 9)) :=
  ⟨⟨rfl, rfl⟩,
    acknowledge_read_accepted_last_write_wins [demoRead] 5 9 "view" demoRead rfl rfl⟩

/-! ## Redis rate limiter and distributed locks (redis_cache.py)

The Redis keyspace becomes an association list from key to value plus an
absolute expiry instant; a key is live at time `now` iff `now < expiry`.
`INCR`, `EXPIRE`, `SET ... NX EX`, `TTL` and the compare-and-delete Lua
script are embedded under that convention, with the wall clock an
explicit parameter. -/

/-- Rate-limit keyspace: key ↦ (counter value, absolute expiry). -/
def RLStore := List (String × Nat × Nat)

def rlGet (s : RLStore) (k : String) : Option (Nat × Nat) :=
  (s.find? (fun e => e.1 == k)).map (fun e => e.2)

/-- Store the key's value, overwriting any previous binding. -/
def rlSet (s : RLStore) (k : String) (v : Nat × Nat) : RLStore :=
  (k, v) :: s.filter (fun e => !(e.1 == k))

structure RateLimitResult where
  allowed : Bool
  remaining : Nat
  reset_at : Nat
  limit : Nat
  window : Nat
  current : Nat
  deriving Repr, DecidableEq

/-- `RedisCache.check_rate_limit` (redis_cache.py lines 289-333): a
transactional `INCR` + `EXPIRE` pipeline — note the `EXPIRE` runs on
*every* call (line 314), resetting the key's TTL to `window` each time —
then a `TTL` read for `reset_at`.  `INCR` on an absent or expired key
creates it at 1.  Python `max(0, limit - current)` is `Nat` subtraction. -/
def check_rate_limit (s : RLStore) (now : Nat) (identifier : String)
    (limit window : Nat) : RLStore × RateLimitResult :=
  let key := "ratelimit:" ++ identifier
  let current :=
    match rlGet s key with
    | some (c, expiry) => if now < expiry then c + 1 else 1
    | none => 1
  let s := rlSet s key (current, now + window)
  let remaining := limit - current
  let allowed := decide (current ≤ limit)
  let reset_at := if 0 < window then now + window else 0
  (s, { allowed := allowed, remaining := remaining, reset_at := reset_at,
        limit := limit, window := window, current := current })

theorem rlGet_rlSet_self (s : RLStore) (k : String) (v : Nat × Nat) :
    rlGet (rlSet s k v) k = some v := by
  simp [rlGet, rlSet, List.find?]

theorem check_rate_limit_fresh (s : RLStore) (now : Nat) (ident : String)
    (limit window : Nat)
    (hget : rlGet s ("ratelimit:" ++ ident) = none) :
    check_rate_limit s now ident limit window =
      (rlSet s ("ratelimit:" ++ ident) (1, now + window),
       { allowed := decide (1 ≤ limit), remaining := limit - 1,
         reset_at := if 0 < window then now + window else 0,
         limit := limit, window := window, current := 1 }) := by
  simp only [check_rate_limit, hget]

theorem check_rate_limit_live (s : RLStore) (now : Nat) (ident : String)
    (limit window c expiry : Nat)
    (hget : rlGet s ("ratelimit:" ++ ident) = some (c, expiry))
    (hlive : now < expiry) :
    check_rate_limit s now ident limit window =
      (rlSet s ("ratelimit:" ++ ident) (c + 1, now + window),
       { allowed := decide (c + 1 ≤ limit), remaining := limit - (c + 1),
         reset_at := if 0 < window then now + window else 0,
         limit := limit, window := window, current := c + 1 }) := by
  simp only [check_rate_limit, hget, if_pos hlive]

theorem check_rate_limit_expired (s : RLStore) (now : Nat) (ident : String)
    (limit window c expiry : Nat)
    (hget : rlGet s ("ratelimit:" ++ ident) = some (c, expiry))
    (hdead : expiry ≤ now) :
    check_rate_limit s now ident limit window =
      (rlSet s ("ratelimit:" ++ ident) (1, now + window),
       { allowed := decide (1 ≤ limit), remaining := limit - 1,
         reset_at := if 0 < window then now + window else 0,
         limit := limit, window := window, current := 1 }) := by
  simp only [check_rate_limit, hget, if_neg (Nat.not_lt.mpr hdead)]

/-! ## Claim C5 -/

/-- C5: with `limit = 5, window = 60 s` on one key, starting fresh: six
calls each within the (refreshed) window count 1..6 — the 6th returns
`allowed = false` with `remaining = 0` while the counter still reads 6 —
a 7th call after the window has lapsed returns `allowed = true` on a
fresh counter, and the first write leaves the key with TTL = `window`
(expiry `t1 + 60`). -/
theorem rate_limit_sixth_call_and_reset (ident : String)
    (t1 t2 t3 t4 t5 t6 t7 : Nat)
    (s1 s2 s3 s4 s5 s6 s7 : RLStore)
    (r1 r2 r3 r4 r5 r6 r7 : RateLimitResult)
    (h12 : t2 < t1 + 60) (h23 : t3 < t2 + 60) (h34 : t4 < t3 + 60)
    (h45 : t5 < t4 + 60) (h56 : t6 < t5 + 60) (h67 : t6 + 60 ≤ t7)
    (e1 : check_rate_limit [] t1 ident 5 60 = (s1, r1))
    (e2 : check_rate_limit s1 t2 ident 5 60 = (s2, r2))
    (e3 : check_rate_limit s2 t3 ident 5 60 = (s3, r3))
    (e4 : check_rate_limit s3 t4 ident 5 60 = (s4, r4))
    (e5 : check_rate_limit s4 t5 ident 5 60 = (s5, r5))
    (e6 : check_rate_limit s5 t6 ident 5 60 = (s6, r6))
    (e7 : check_rate_limit s6 t7 ident 5 60 = (s7, r7)) :
    r6.allowed = false ∧ r6.remaining = 0 ∧ r6.current = 6 ∧
    r7.allowed = true ∧ r7.current = 1 ∧
    rlGet s1 ("ratelimit:" ++ ident) = some (1, t1 + 60) := by
  rw [check_rate_limit_fresh [] t1 ident 5 60 rfl] at e1
  injection e1 with hs1 hr1
  have g1 : rlGet s1 ("ratelimit:" ++ ident) = some (1, t1 + 60) := by
    rw [← hs1]
    exact rlGet_rlSet_self _ _ _
  rw [check_rate_limit_live s1 t2 ident 5 60 1 (t1 + 60) g1 h12] at e2
  injection e2 with hs2 hr2
  have g2 : rlGet s2 ("ratelimit:" ++ ident) = some (2, t2 + 60) := by
    rw [← hs2]
    exact rlGet_rlSet_self _ _ _
  rw [check_rate_limit_live s2 t3 ident 5 60 2 (t2 + 60) g2 h23] at e3
  injection e3 with hs3 hr3
  have g3 : rlGet s3 ("ratelimit:" ++ ident) = some (3, t3 + 60) := by
    rw [← hs3]
    exact rlGet_rlSet_self _ _ _
  rw [check_rate_limit_live s3 t4 ident 5 60 3 (t3 + 60) g3 h34] at e4
  injection e4 with hs4 hr4
  have g4 : rlGet s4 ("ratelimit:" ++ ident) = some (4, t4 + 60) := by
    rw [← hs4]
    exact rlGet_rlSet_self _ _ _
  rw [check_rate_limit_live s4 t5 ident 5 60 4 (t4 + 60) g4 h45] at e5
  injection e5 with hs5 hr5
  have g5 : rlGet s5 ("ratelimit:" ++ ident) = some (5, t5 + 60) := by
    rw [← hs5]
    exact rlGet_rlSet_self _ _ _
  rw [check_rate_limit_live s5 t6 ident 5 60 5 (t5 + 60) g5 h56] at e6
  injection e6 with hs6 hr6
  have g6 : rlGet s6 ("ratelimit:" ++ ident) = some (6, t6 + 60) := by
    rw [← hs6]
    exact rlGet_rlSet_self _ _ _
  rw [check_rate_limit_expired s6 t7 ident 5 60 6 (t6 + 60) g6 h67] at e7
  injection e7 with hs7 hr7
  refine ⟨?_, ?_, ?_, ?_, ?_, g1⟩
  · rw [← hr6]
    rfl
  · rw [← hr6]
  · rw [← hr6]
  · rw [← hr7]
    rfl
  · rw [← hr7]

def rl1 : RLStore × RateLimitResult := check_rate_limit [] 0 "client" 5 60
def rl2 : RLStore × RateLimitResult := check_rate_limit rl1.1 0 "client" 5 60
def rl3 : RLStore × RateLimitResult := check_rate_limit rl2.1 0 "client" 5 60
def rl4 : RLStore × RateLimitResult := check_rate_limit rl3.1 0 "client" 5 60
def rl5 : RLStore × RateLimitResult := check_rate_limit rl4.1 0 "client" 5 60
def rl6 : RLStore × RateLimitResult := check_rate_limit rl5.1 0 "client" 5 60
def rl7 : RLStore × RateLimitResult := check_rate_limit rl6.1 60 "client" 5 60

/-- Witness for C5: six calls at `t = 0`, the 7th at `t = 60`. -/
theorem rate_limit_sixth_call_and_reset_witness :
    ((0 : Nat) < 0 + 60 ∧ (0 : Nat) + 60 ≤ 60) ∧
    (rl6.2.allowed = false ∧ rl6.2.remaining = 0 ∧ rl6.2.current = 6 ∧
     rl7.2.allowed = true ∧ rl7.2.current = 1 ∧
     rlGet rl1.1 ("ratelimit:" ++ "client") = some (1, 0 + 60)) :=
  ⟨⟨by decide, by decide⟩,
    rate_limit_sixth_call_and_reset "client" 0 0 0 0 0 0 60
      rl1.1 rl2.1 rl3.1 rl4.1 rl5.1 rl6.1 rl7.1
      rl1.2 rl2.2 rl3.2 rl4.2 rl5.2 rl6.2 rl7.2
      (by decide) (by decide) (by decide) (by decide) (by decide) (by decide)
      rfl rfl rfl rfl rfl rfl rfl⟩

/-! ## Distributed locks -/

/-- Lock keyspace: key ↦ (holder token, absolute expiry). -/
def LockStore := List (String × String × Nat)

/-- `GET` on the lock keyspace: `none` for an absent or expired key. -/
def lockGet (s : LockStore) (now : Nat) (k : String) : Option String :=
  match (s.find? (fun e => e.1 == k)).map (fun e => e.2) with
  | some (tok, expiry) => if now < expiry then some tok else none
  | none => none

/-- `DEL` on the lock keyspace. -/
def lockDelete (s : LockStore) (k : String) : LockStore :=
  s.filter (fun e => !(e.1 == k))

/-- `RedisCache.release_lock` (redis_cache.py lines 383-397): the Lua
compare-and-delete — delete the key and answer `true` exactly when the
stored value equals the presented token. -/
def release_lock (s : LockStore) (now : Nat) (lock_name lock_token : String) :
    LockStore × Bool :=
  let key := "lock:" ++ lock_name
  match lockGet s now key with
  | some v => if v = lock_token then (lockDelete s key, true) else (s, false)
  | none => (s, false)

theorem lockGet_delete (s : LockStore) (now : Nat) (k : String) :
    lockGet (lockDelete s k) now k = none := by
  unfold lockGet lockDelete
  have hfind : (s.filter (fun e => !(e.1 == k))).find? (fun e => e.1 == k) = none := by
    rw [List.find?_eq_none]
    intro x hx
    have hmem := List.mem_filter.mp hx
    simpa using hmem.2
  rw [hfind]
  rfl

/-! ## Claim C6 -/

/-- C6: `release_lock` is a compare-and-delete — it answers `true` and
removes the lock exactly when the live value under the lock key equals
the presented token; with a stale or foreign token it answers `false`
and leaves the store untouched. -/
theorem release_lock_compare_and_delete (s : LockStore) (now : Nat)
    (name tok : String) :
    ((release_lock s now name tok).2 = true ↔
      lockGet s now ("lock:" ++ name) = some tok) ∧
    ((release_lock s now name tok).2 = true →
      lockGet (release_lock s now name tok).1 now ("lock:" ++ name) = none) ∧
    ((release_lock s now name tok).2 = false →
      (release_lock s now name tok).1 = s) := by
  unfold release_lock
  rcases hget : lockGet s now ("lock:" ++ name) with _ | v
  · simp [hget]
  · by_cases hv : v = tok
    · subst hv
      simp [hget, lockGet_delete]
    · simp [hget, hv]

/-- Witness for C6: a held lock released once with the right token and
once with a foreign token. -/
theorem release_lock_compare_and_delete_witness :
    ((release_lock [("lock:report", "tokA", 50)] 10 "report" "tokA").2 = true ↔
      lockGet [("lock:report", "tokA", 50)] 10 ("lock:" ++ "report") = some "tokA") ∧
    ((release_lock [("lock:report", "tokA", 50)] 10 "report" "tokA").2 = true →
      lockGet (release_lock [("lock:report", "tokA", 50)] 10 "report" "tokA").1 10
        ("lock:" ++ "report") = none) ∧
    ((release_lock [("lock:report", "tokA", 50)] 10 "report" "tokA").2 = false →
      (release_lock [("lock:report", "tokA", 50)] 10 "report" "tokA").1 =
        [("lock:report", "tokA", 50)]) :=
  release_lock_compare_and_delete [("lock:report", "tokA", 50)] 10 "report" "tokA"

/-! ## Claim C9 — blocking lock acquisition

The blocking branch of `RedisCache.acquire_lock` (redis_cache.py lines
359-373) loops `while now() - start < timeout`, attempting
`SET key token NX EX timeout` and sleeping 0.1 s after each failed
attempt.  Each iteration therefore advances the wall clock by at least a
decisecond, so the guard admits at most `10 * timeout` iterations.  The
model counts attempts: `tryAt k` is whether the set-if-absent succeeds on
the `k`-th attempt, and the fuel is the number of attempts the time guard
still admits. -/

def acquire_lock_loop (tryAt : Nat → Bool) (lock_token : String) :
    Nat → Nat → Option String
  | 0, _ => none
  | fuel + 1, k =>
      if tryAt k then some lock_token
      else acquire_lock_loop tryAt lock_token fuel (k + 1)

/-- `acquire_lock` with `blocking=True` and expiry/wait `timeout`
(seconds); `lock_token` stands for the generated uuid. -/
def acquire_lock_blocking (tryAt : Nat → Bool) (lock_token : String)
    (timeout : Nat) : Option String :=
  acquire_lock_loop tryAt lock_token (10 * timeout) 0

theorem acquire_lock_loop_none (tryAt : Nat → Bool) (tok : String) :
    ∀ fuel k, (∀ j, j < fuel → tryAt (k + j) = false) →
      acquire_lock_loop tryAt tok fuel k = none := by
  intro fuel
  induction fuel with
  | zero => intro k _; rfl
  | succ f ih =>
      intro k h
      have h0 : tryAt k = false := by simpa using h 0 (Nat.succ_pos f)
      unfold acquire_lock_loop
      rw [h0]
      simp only [Bool.false_eq_true, if_false]
      refine ih (k + 1) (fun j hj => ?_)
      have hadd : k + 1 + j = k + (j + 1) := by omega
      rw [hadd]
      exact h (j + 1) (by omega)

theorem acquire_lock_loop_some (tryAt : Nat → Bool) (tok : String) :
    ∀ fuel k j, j < fuel → tryAt (k + j) = true →
      acquire_lock_loop tryAt tok fuel k = some tok := by
  intro fuel
  induction fuel with
  | zero => intro k j hj _; omega
  | succ f ih =>
      intro k j hj hsucc
      unfold acquire_lock_loop
      cases htk : tryAt k with
      | true => simp
      | false =>
          simp only [Bool.false_eq_true, if_false]
          cases j with
          | zero => rw [Nat.add_zero] at hsucc; rw [htk] at hsucc; cases hsucc
          | succ j' =>
              refine ih (k + 1) j' (by omega) ?_
              have hadd : k + 1 + j' = k + (j' + 1) := by omega
              rw [hadd]
              exact hsucc

/-- C9: for every positive timeout `t`, blocking `acquire_lock` never
blocks indefinitely: it performs at most `10 * t` set-if-absent attempts,
returns the token as soon as one succeeds, and returns `none` when all
attempts within the `t`-second guard fail. -/
theorem acquire_lock_blocking_terminates (tryAt : Nat → Bool) (tok : String)
    (timeout : Nat) (hpos : 0 < timeout) :
    ((∃ j, j < 10 * timeout ∧ tryAt j = true) →
      acquire_lock_blocking tryAt tok timeout = some tok) ∧
    ((∀ j, j < 10 * timeout → tryAt j = false) →
      acquire_lock_blocking tryAt tok timeout = none) := by
  constructor
  · rintro ⟨j, hj, hsucc⟩
    exact acquire_lock_loop_some tryAt tok (10 * timeout) 0 j hj (by simpa using hsucc)
  · intro h
    exact acquire_lock_loop_none tryAt tok (10 * timeout) 0
      (fun j hj => by simpa using h j hj)

/-- Witness for C9: timeout of 1 s with success on the third attempt. -/
theorem acquire_lock_blocking_terminates_witness :
    (0 : Nat) < 1 ∧
    (((∃ j, j < 10 * 1 ∧ (fun k => k == 2) j = true) →
        acquire_lock_blocking (fun k => k == 2) "tok" 1 = some "tok") ∧
     ((∀ j, j < 10 * 1 → (fun k => k == 2) j = false) →
        acquire_lock_blocking (fun k => k == 2) "tok" 1 = none)) :=
  ⟨by decide, acquire_lock_blocking_terminates (fun k => k == 2) "tok" 1 (by decide)⟩

/-! ## Claim C10 — distribution summary

`get_distribution_summary` (report_distribution.py lines 576-633),
restricted to the `summary` block of its response (the `by_type`
breakdown and the echoed date range are not read by any claim). -/

/-- Round-half-to-even on an exact rational, the convention of Python's
`round`. -/
def roundHalfEven (q : ℚ) : ℤ :=
  let f := ⌊q⌋
  let frac := q - (f : ℚ)
  if frac < 1 / 2 then f
  else if 1 / 2 < frac then f + 1
  else if f % 2 = 0 then f else f + 1

/-- Python `round(x, 2)`. -/
def pyround2 (x : ℚ) : ℚ := ((roundHalfEven (x * 100) : ℚ)) / 100

/-- Division guarded against a zero denominator (Python `/` raises
`ZeroDivisionError` there). -/
def checkedDiv (a b : ℚ) : Option ℚ :=
  if b = 0 then none else some (a / b)

/-- The filters of lines 589-596.  Python `if doctor_id:` / `if branch_id:`
treat both `None` and `0` as falsy, so a zero id applies no filter. -/
def summary_filter (doctor_id branch_id start_date end_date : Option Nat)
    (d : ReportDistribution) : Bool :=
  (match doctor_id with
   | some i => if i = 0 then true else d.doctor_id == i
   | none => true) &&
  (match branch_id with
   | some i => if i = 0 then true else d.branch_id == i
   | none => true) &&
  (match start_date with
   | some t => decide (t ≤ d.created_at)
   | none => true) &&
  (match end_date with
   | some t => decide (d.created_at ≤ t)
   | none => true)

structure DistributionSummary where
  total_distributions : Nat
  pending : Nat
  sent : Nat
  delivered : Nat
  read : Nat
  failed : Nat
  /-- `round((read + delivered) / total * 100, 2) if total > 0 else 0`,
  with the division surfaced as a guarded operation. -/
  delivery_rate : Option ℚ
  deriving DecidableEq

def get_distribution_summary (dbs : List ReportDistribution)
    (doctor_id branch_id start_date end_date : Option Nat) :
    DistributionSummary :=
  let q := dbs.filter (summary_filter doctor_id branch_id start_date end_date)
  let total := q.length
  let pending := (q.filter (fun d => d.delivery_status == "pending")).length
  let sent := (q.filter (fun d => d.delivery_status == "sent")).length
  let delivered := (q.filter (fun d => d.delivery_status == "delivered")).length
  let read := (q.filter (fun d => d.delivery_status == "read")).length
  let failed := (q.filter (fun d => d.delivery_status == "failed")).length
  let delivery_rate :=
    if 0 < total then
      (checkedDiv ((read : ℚ) + (delivered : ℚ)) (total : ℚ)).map
        (fun x => pyround2 (x * 100))
    else some 0
  { total_distributions := total, pending := pending, sent := sent,
    delivered := delivered, read := read, failed := failed,
    delivery_rate := delivery_rate }

/-- C10: for every combination of filters the summary never divides by
zero — the rate is always defined: `0` when the filtered total is `0`,
and `round((read + delivered) / total * 100, 2)` otherwise. -/
theorem summary_delivery_rate_safe (dbs : List ReportDistribution)
    (doctor_id branch_id start_date end_date : Option Nat)
    (s : DistributionSummary)
    (hs : get_distribution_summary dbs doctor_id branch_id start_date end_date = s) :
    s.delivery_rate.isSome = true ∧
    (s.total_distributions = 0 → s.delivery_rate = some 0) ∧
    (0 < s.total_distributions →
      s.delivery_rate = some (pyround2
        (((s.read : ℚ) + (s.delivered : ℚ)) / (s.total_distributions : ℚ) * 100))) := by
  subst hs
  unfold get_distribution_summary
  dsimp only
  by_cases htot : 0 < (dbs.filter (summary_filter doctor_id branch_id start_date end_date)).length
  · have hne : ((dbs.filter (summary_filter doctor_id branch_id start_date end_date)).length : ℚ) ≠ 0 := by
      exact_mod_cast Nat.pos_iff_ne_zero.mp htot
    rw [if_pos htot]
    simp only [checkedDiv, if_neg hne, Option.map_some', Option.isSome_some]
    exact ⟨trivial, fun h => absurd h (by omega), fun _ => trivial⟩
  · rw [if_neg htot]
    refine ⟨rfl, fun _ => rfl, fun hcontra => absurd hcontra htot⟩

/-- Witness for C10: a two-record table with no filters — one record
`read`, one `pending`, rate `round(1/2*100, 2) = 50`. -/
theorem summary_delivery_rate_safe_witness :
    get_distribution_summary [demoRead, demoPending] none none none none =
      get_distribution_summary [demoRead, demoPending] none none none none ∧
    ((get_distribution_summary [demoRead, demoPending] none none none none).delivery_rate.isSome = true ∧
     ((get_distribution_summary [demoRead, demoPending] none none none none).total_distributions = 0 →
       (get_distribution_summary [demoRead, demoPending] none none none none).delivery_rate = some 0) ∧
     (0 < (get_distribution_summary [demoRead, demoPending] none none none none).total_distributions →
       (get_distribution_summary [demoRead, demoPending] none none none none).delivery_rate =
         some (pyround2
           ((((get_distribution_summary [demoRead, demoPending] none none none none).read : ℚ) +
             ((get_distribution_summary [demoRead, demoPending] none none none none).delivered : ℚ)) /
            ((get_distribution_summary [demoRead, demoPending] none none none none).total_distributions : ℚ) * 100)))) :=
  ⟨rfl, summary_delivery_rate_safe [demoRead, demoPending] none none none none _ rfl⟩

end VaidyaVihar
